import Mathlib

set_option maxRecDepth 8000

/-!
Verification development for the row-classification workflow of
`test_graph.py` (Excel row classification via a LangGraph state machine).

The workflow state (`ExcelRowClassificationState`, a TypedDict whose keys are
all written at every invocation, so optional fields are `Option` values that
are always *present*, possibly `None`) is threaded through the nodes
`determine_classification_strategy`, `validate_row_data`,
`prepare_llm_input_node`, `llm_classification_agent`, `quality_check_node`,
the router `decide_next_step` and `error_handling_node`.  Machine floats in
the source are exact decimal constants compared only among themselves, so we
model confidences as rationals.  Python code that can raise (attribute errors
on `None`, type errors when joining non-string labels) is embedded in
`Except PyExc`.
-/

/-- A scalar cell value of an input row: a string, or a non-string scalar
(e.g. a number read from Excel) on which Python `str` always succeeds. -/
inductive PyVal where
  | vstr (s : String)
  | vint (n : Int)
deriving DecidableEq, Repr

/-- A Python dict from field names to scalar values, in insertion order. -/
abbrev PyRow := List (String × PyVal)

/-- Python `str` applied to a cell value. -/
def pyValStr : PyVal → String
  | .vstr s => s
  | .vint n => toString n

/-- Python `str` applied to an optional value (`None` renders as "None"),
as f-string interpolation does. -/
def pyStrOpt : Option String → String
  | none => "None"
  | some s => s

/-- Python truthiness of an optional string: `None` and `""` are falsy. -/
def truthyStr : Option String → Bool
  | none => false
  | some s => match s.data with
    | [] => false
    | _ :: _ => true

/-- Python truthiness of an optional list/dict: `None` and empty are falsy. -/
def truthyList {α : Type} : Option (List α) → Bool
  | none => false
  | some [] => false
  | some (_ :: _) => true

/-- Python `row[k]` / `k in row` lookup (first binding wins, as dict keys
are unique). -/
def lookupRow : PyRow → String → Option PyVal
  | [], _ => none
  | (k', v) :: t, k => if k' = k then some v else lookupRow t k

/-- Python `row[k] = v`: replace in place, or append if the key is new. -/
def rowSet : PyRow → String → PyVal → PyRow
  | [], k, v => [(k, v)]
  | (k', v') :: t, k, v =>
      if k' = k then (k', v) :: t else (k', v') :: rowSet t k v

/-- Python `ex.get(k)` where the key itself may be `None`
(`d.get(None)` finds nothing since all keys are strings). -/
def pyGetVal (ex : PyRow) (k : Option String) : Option PyVal :=
  match k with
  | none => none
  | some k' => lookupRow ex k'

/-- Python `ex.get(k, dflt)` with a possibly-`None` key. -/
def pyGetValD (ex : PyRow) (k : Option String) (dflt : PyVal) : PyVal :=
  (pyGetVal ex k).getD dflt

/-- ASCII lower-casing of a character, as Python `str.lower` acts on the
ASCII inputs of this program. -/
def pyLowerChar (c : Char) : Char :=
  if 'A' ≤ c ∧ c ≤ 'Z' then Char.ofNat (c.toNat + 32) else c

/-- Python `str.lower`. -/
def pyLower (s : String) : String := ⟨s.data.map pyLowerChar⟩

/-- The whitespace class of Python `str.strip` and of the regex `\s`
(ASCII part). -/
def isPySpace (c : Char) : Bool :=
  c = ' ' || c = '\t' || c = '\n' || c = '\r' || c = '\x0b' || c = '\x0c'

/-- Python `str.strip` on a character list. -/
def pyStripL (l : List Char) : List Char :=
  ((l.dropWhile isPySpace).reverse.dropWhile isPySpace).reverse

/-- Python `str.strip`. -/
def pyStrip (s : String) : String := ⟨pyStripL s.data⟩

/-- Python `s.startswith(m)`. -/
def strStarts (s m : String) : Bool := m.data.isPrefixOf s.data

/-- Python `sub in s` (substring membership) on character lists. -/
def subInL (sub : List Char) : List Char → Bool
  | [] => sub.isEmpty
  | c :: t => sub.isPrefixOf (c :: t) || subInL sub t

/-- Python `sub in s` (substring membership). -/
def subIn (sub s : String) : Bool := subInL sub.data s.data

/-- Case-insensitive "the marker is a prefix here" test, as the
`re.IGNORECASE` literal match does. -/
def ciStarts : List Char → List Char → Bool
  | [], _ => true
  | _ :: _, [] => false
  | a :: as_, b :: bs => (pyLowerChar a = pyLowerChar b) && ciStarts as_ bs

/-- `re.search` scan: the remainder after the first (leftmost)
case-insensitive occurrence of the marker, if any. -/
def searchCI (m : List Char) : List Char → Option (List Char)
  | [] => if ciStarts m [] then some [] else none
  | c :: t => if ciStarts m (c :: t) then some ((c :: t).drop m.length)
              else searchCI m t

/-- The capture group of `re.search(r"M:\s*(.*)", s, re.IGNORECASE)`:
after the first case-insensitive occurrence of the marker, the greedy `\s*`
skips all whitespace (newlines included), then `(.*)` captures up to the
next newline. `none` when the marker does not occur. -/
def regexGroup (m : String) (s : String) : Option String :=
  (searchCI m.data s.data).map
    (fun rest => ⟨(rest.dropWhile isPySpace).takeWhile (fun c => !(c = '\n'))⟩)

/-- Python `s.split(":", 1)[1]`: the remainder after the first colon
(only used where a colon is known to occur). -/
def afterFirstColonL : List Char → List Char
  | [] => []
  | c :: t => if c = ':' then t else afterFirstColonL t

/-- Python `s.split(":", 1)[1]` on strings. -/
def afterFirstColon (s : String) : String := ⟨afterFirstColonL s.data⟩

/-- Python `", ".join(l)`-style separator join. -/
def joinSep (sep : String) : List String → String
  | [] => ""
  | [x] => x
  | x :: y :: t => x ++ sep ++ joinSep sep (y :: t)

/-- Insert a string into an ascending list (for Python `sorted`). -/
def insSorted (x : String) : List String → List String
  | [] => [x]
  | y :: t => if x < y then x :: y :: t else y :: insSorted x t

/-- Python `sorted` on strings (code-point lexicographic, ascending). -/
def sortStrs : List String → List String
  | [] => []
  | x :: t => insSorted x (sortStrs t)

/-- Python `sorted(list(set(l)))` for strings. -/
def dedupSort (l : List String) : List String := sortStrs l.eraseDups

/-- Python repr of the key list of a row, `list(input_row.keys())`. -/
def pyReprKeys (row : PyRow) : String :=
  "[" ++ joinSep ", " (row.map (fun kv => "\x27" ++ kv.1 ++ "\x27")) ++ "]"

/-- The keys of an optional definitions dict (`None` has no keys). -/
def defKeys : Option (List (String × String)) → List String
  | none => []
  | some l => l.map (fun kv => kv.1)

/-- Python `cat in defs` key membership on a definitions dict. -/
def keyMem (cat : String) : Option (List (String × String)) → Bool
  | none => false
  | some l => l.any (fun kv => kv.1 = cat)

/-- Python `any(ex.get(label_col) == cat for ex in exs)`: some example whose
label value is the string `cat` (a non-string value never equals a `str`). -/
def anyLabelEq (exs : List PyRow) (lbl : Option String) (cat : String) : Bool :=
  exs.any (fun ex => pyGetVal ex lbl = some (PyVal.vstr cat))

/-- Whether every example label rendered into the few-shot prompt is a
string (otherwise Python `sorted`/`join` raises a `TypeError`). -/
def labelsAllStr (exs : List PyRow) (lbl : Option String) : Bool :=
  exs.all (fun ex => match pyGetValD ex lbl (PyVal.vstr "UnknownLabel") with
    | .vstr _ => true
    | _ => false)

/-- The classifier's reply: a string, or a non-string object (e.g. an
AIMessage) carrying its rendering. -/
inductive LLMResp where
  | rstr (s : String)
  | rother (rendering : String)
deriving DecidableEq, Repr

/-- Python exceptions the workflow code itself can raise. -/
inductive PyExc where
  | attributeError
  | typeError
deriving DecidableEq, Repr

/-- Decidable equality for workflow results. -/
instance {e a : Type} [DecidableEq e] [DecidableEq a] :
    DecidableEq (Except e a) := fun x y =>
  match x, y with
  | .ok u, .ok v =>
    if h : u = v then isTrue (by rw [h]) else
      isFalse (fun he => h (Except.ok.inj he))
  | .error u, .error v =>
    if h : u = v then isTrue (by rw [h]) else
      isFalse (fun he => h (Except.error.inj he))
  | .ok _, .error _ => isFalse (fun he => Except.noConfusion he)
  | .error _, .ok _ => isFalse (fun he => Except.noConfusion he)

/-- The router's outcome: the conditional edge of the graph. -/
inductive Route where
  | handleError
  | endRoute
deriving DecidableEq, Repr

/-- `ExcelRowClassificationState`: every key is written at invocation time,
so `Optional` fields are `Option` values that are present (possibly `None`).
`confidence_score` is modelled as an exact rational. -/
structure WFState where
  all_rows_data : Option (List PyRow)
  provided_examples : Option (List PyRow)
  class_definitions : Option (List (String × String))
  target_column_for_classification : String
  label_column_name : Option String
  input_row : PyRow
  classification_mode : Option String
  llm_prompt : Option String
  classification_category : Option String
  confidence_score : Option ℚ
  llm_reasoning : Option String
  error_message : Option String
  processing_steps : List String
deriving DecidableEq, Repr

/-- `determine_classification_strategy` (test_graph.py lines 66-100): picks
the mode from the available supervision, or fails when the target column
name is falsy. -/
def determine_classification_strategy (s : WFState) : WFState :=
  if s.target_column_for_classification = "" then
    { s with
      error_message := some
        "Critical: \x60target_column_for_classification\x60 is not set in the state.",
      processing_steps := s.processing_steps ++
        ["determine_classification_strategy: FAILED - No target column"] }
  else if truthyList s.provided_examples then
    { s with
      classification_mode := some "few_shot_examples",
      processing_steps := s.processing_steps ++
        ["determine_classification_strategy: SUCCESS - Few-shot"] }
  else if truthyList s.class_definitions then
    { s with
      classification_mode := some "definition_based",
      processing_steps := s.processing_steps ++
        ["determine_classification_strategy: SUCCESS - Definition-based"] }
  else
    { s with
      classification_mode := some "unsupervised_anomaly",
      processing_steps := s.processing_steps ++
        ["determine_classification_strategy: SUCCESS - Unsupervised"] }

/-- `validate_row_data` (lines 102-136): skip on a prior error; fail when the
row is empty or the target column is missing; coerce a non-string value to a
string in place (Python `str` succeeds on every scalar this model admits, so
the unreachable conversion-failure branch is not represented). -/
def validate_row_data (s : WFState) : WFState :=
  if truthyStr s.error_message then
    { s with processing_steps := s.processing_steps ++
        ["validate_row_data: SKIPPED due to prior error"] }
  else if s.input_row = [] then
    { s with
      error_message := some "Input row is missing.",
      processing_steps := s.processing_steps ++
        ["validate_row_data: FAILED - No input row"] }
  else
    match lookupRow s.input_row s.target_column_for_classification with
    | none =>
      { s with
        error_message := some
          ("Target column \x27" ++ s.target_column_for_classification ++
           "\x27 not found in the input row: " ++ pyReprKeys s.input_row ++ "."),
        processing_steps := s.processing_steps ++
          ["validate_row_data: FAILED - Missing target column \x27" ++
           s.target_column_for_classification ++ "\x27"] }
    | some (.vstr _) =>
      { s with processing_steps := s.processing_steps ++
          ["validate_row_data: SUCCESS"] }
    | some (.vint n) =>
      { s with
        input_row := rowSet s.input_row s.target_column_for_classification
          (.vstr (toString n)),
        processing_steps := s.processing_steps ++
          ["validate_row_data: WARNING - Converted target column to string",
           "validate_row_data: SUCCESS"] }

/-- The unsupervised prompt text of `prepare_llm_input_node` (lines 152-158). -/
def unsupPromptText (text : String) : String :=
  "Analyze the following text data from a dataset: \x27" ++ text ++ "\x27.\n" ++
  "Identify its key characteristics. Based on these, would you consider this data point " ++
  "an anomaly, or can you suggest a general category it might belong to? " ++
  "Respond with \x27Category: <Your Category>\x27 and on a new line \x27Reasoning: <Your Reasoning>\x27. " ++
  "If anomalous, state \x27Category: Anomaly\x27. If the text is empty or clearly invalid, state \x27Category: Empty/Invalid\x27."

/-- The few-shot prompt text (lines 164-174), given the rendered example
lines and the sorted distinct label set. -/
def fewShotPromptText (cats : List String) (formatted : String)
    (text : String) : String :=
  "You are an expert text classifier. Given the following examples (categories seen: " ++
  joinSep ", " cats ++ "):\n" ++ formatted ++
  "\n\nNow, classify the following text: \x27" ++ text ++ "\x27\n" ++
  "Provide only the category name from the examples. If unsure or if it doesn\x27t fit, state \x27Uncertain\x27.\n" ++
  "Category:"

/-- The definition-based prompt text (lines 177-188). -/
def defPromptText (defs : List (String × String)) (text : String) : String :=
  "You are an expert text classifier. Use ONLY the following category definitions to classify the text below:\n\n" ++
  "Definitions:\n" ++
  joinSep "\n" (defs.map (fun kv => "- " ++ kv.1 ++ ": " ++ kv.2)) ++
  "\n\nText to classify: \x27" ++ text ++ "\x27\n" ++
  "Provide the most fitting category name from this list: " ++
  joinSep ", " (defs.map (fun kv => kv.1)) ++
  ". If none fit well, state \x27Uncategorized\x27.\nCategory:"

/-- `prepare_llm_input_node` (lines 138-197): skip on error, else build the
mode-specific prompt. In few-shot mode Python iterates
`state["provided_examples"]` directly (a `TypeError` if it were `None`) and
`", ".join(sorted(...))` over the label set raises `TypeError` when a label
is not a string; in definition-based mode `definitions.items()` raises
`AttributeError` if definitions were `None`. An unknown mode sets the error
message instead. -/
def prepare_llm_input_node (s : WFState) : Except PyExc WFState :=
  if truthyStr s.error_message then
    .ok { s with processing_steps := s.processing_steps ++
            ["prepare_llm_input_node: SKIPPED due to error"] }
  else
    let text := pyValStr ((lookupRow s.input_row
      s.target_column_for_classification).getD (.vstr ""))
    if s.classification_mode = some "unsupervised_anomaly" then
      .ok { s with
        llm_prompt := some (unsupPromptText text),
        processing_steps := s.processing_steps ++
          ["prepare_llm_input_node: SUCCESS - Mode unsupervised_anomaly"] }
    else if s.classification_mode = some "few_shot_examples" then
      match s.provided_examples with
      | none => .error .typeError
      | some exs =>
        if labelsAllStr exs s.label_column_name then
          let formatted := joinSep "\n" (exs.map (fun ex =>
            "- Text: \"" ++ pyValStr (pyGetValD ex
              (some s.target_column_for_classification) (.vstr "")) ++
            "\" -> Category: " ++
            pyValStr (pyGetValD ex s.label_column_name (.vstr "UnknownLabel"))))
          let cats := dedupSort (exs.map (fun ex =>
            pyValStr (pyGetValD ex s.label_column_name (.vstr "UnknownLabel"))))
          .ok { s with
            llm_prompt := some (fewShotPromptText cats formatted text),
            processing_steps := s.processing_steps ++
              ["prepare_llm_input_node: SUCCESS - Mode few_shot_examples"] }
        else .error .typeError
    else if s.classification_mode = some "definition_based" then
      match s.class_definitions with
      | none => .error .attributeError
      | some defs =>
        .ok { s with
          llm_prompt := some (defPromptText defs text),
          processing_steps := s.processing_steps ++
            ["prepare_llm_input_node: SUCCESS - Mode definition_based"] }
    else
      .ok { s with
        error_message := some ("Unknown classification mode: " ++
          pyStrOpt s.classification_mode),
        processing_steps := s.processing_steps ++
          ["prepare_llm_input_node: FAILED - Unknown mode " ++
           pyStrOpt s.classification_mode] }

/-- The response-parsing part of `llm_classification_agent` (lines 219-258)
for a string response, already stripped. -/
def agentParse (s : WFState) (raw : String) : WFState :=
  if s.classification_mode = some "unsupervised_anomaly" then
    let parsedCat := ((regexGroup "Category:" raw).map pyStrip).getD
      "Error: Parsing Failed"
    let parsedRes := (regexGroup "Reasoning:" raw).map pyStrip
    let conf : ℚ := if parsedCat = "Anomaly" then (mkRat 9 10)
      else if parsedCat = "Empty/Invalid" then (mkRat 5 10) else (mkRat 65 100)
    { s with
      classification_category := some parsedCat,
      llm_reasoning := some (match parsedRes with
        | some rr => if rr = "" then "N/A" else rr
        | none => "N/A"),
      confidence_score := some conf,
      processing_steps := s.processing_steps ++
        ["llm_classification_agent: " ++ parsedCat] }
  else if s.classification_mode = some "few_shot_examples" ∨
          s.classification_mode = some "definition_based" then
    let parsedCat := if strStarts (pyLower raw) "category:" then
        pyStrip (afterFirstColon raw)
      else raw
    let conf : ℚ :=
      if parsedCat = "Uncertain" ∨ parsedCat = "Uncategorized" then (mkRat 4 10)
      else if truthyList s.class_definitions &&
              keyMem parsedCat s.class_definitions then (mkRat 85 100)
      else if truthyList s.provided_examples &&
              anyLabelEq (s.provided_examples.getD []) s.label_column_name
                parsedCat then (mkRat 88 100)
      else (mkRat 6 10)
    { s with
      classification_category := some parsedCat,
      llm_reasoning := some "N/A",
      confidence_score := some conf,
      processing_steps := s.processing_steps ++
        ["llm_classification_agent: " ++ parsedCat] }
  else
    { s with
      classification_category := some "Error: Parsing Failed",
      llm_reasoning := some "N/A",
      confidence_score := some (mkRat 75 100),
      processing_steps := s.processing_steps ++
        ["llm_classification_agent: Error: Parsing Failed"] }

/-- `llm_classification_agent` (lines 199-276): skip on error or missing
prompt; call the injected classifier; on an exception set the error fields;
on a non-string reply set an error and leave confidence untouched; on a
string reply strip it and parse per mode. -/
def llm_classification_agent (llm : String → Except String LLMResp)
    (s : WFState) : WFState :=
  if truthyStr s.error_message || !truthyStr s.llm_prompt then
    { s with processing_steps := s.processing_steps ++
        ["llm_classification_agent: SKIPPED"] }
  else
    match llm (s.llm_prompt.getD "") with
    | .error e =>
      { s with
        error_message := some ("LLM call/parsing failed: " ++ e),
        classification_category := some "Error: LLM Exception",
        llm_reasoning := none,
        confidence_score := some 0,
        processing_steps := s.processing_steps ++
          ["llm_classification_agent: FAILED"] }
    | .ok (.rother rendering) =>
      { s with
        error_message := some "LLM response was not a string. Cannot parse.",
        classification_category := some "Error: LLM Output Type",
        llm_reasoning := some rendering,
        processing_steps := s.processing_steps ++
          ["llm_classification_agent: FAILED"] }
    | .ok (.rstr r) => agentParse s (pyStrip r)

/-- `quality_check_node` (lines 278-303): skip on error; else apply, in
order, the error-substring rule, the exact uncertainty rule, and the
low-confidence rule, each rewriting the category with a review marker. -/
def quality_check_node (s : WFState) : WFState :=
  if truthyStr s.error_message then
    { s with processing_steps := s.processing_steps ++
        ["quality_check_node: SKIPPED"] }
  else if truthyStr s.classification_category &&
          subIn "Error:" (pyStrOpt s.classification_category) then
    { s with
      classification_category := some ("Review_Needed: " ++
        pyStrOpt s.classification_category),
      processing_steps := s.processing_steps ++
        ["quality_check_node: FLAGGED FOR REVIEW - " ++
         pyStrOpt s.classification_category] }
  else if s.classification_category = some "Uncertain" ∨
          s.classification_category = some "Uncategorized" ∨
          s.classification_category = some "Empty/Invalid" then
    { s with
      classification_category := some ("Review_Needed: " ++
        pyStrOpt s.classification_category),
      processing_steps := s.processing_steps ++
        ["quality_check_node: FLAGGED FOR REVIEW - " ++
         pyStrOpt s.classification_category] }
  else
    match s.confidence_score with
    | some q =>
      if q < (mkRat 65 100) then
        { s with
          classification_category := some ("Review_Needed: " ++
            pyStrOpt s.classification_category ++ " (Low Confidence)"),
          processing_steps := s.processing_steps ++
            ["quality_check_node: FLAGGED FOR REVIEW - Low Confidence"] }
      else
        { s with processing_steps := s.processing_steps ++
            ["quality_check_node: PASSED"] }
    | none =>
      { s with processing_steps := s.processing_steps ++
          ["quality_check_node: PASSED"] }

/-- `decide_next_step` (lines 305-317): route to the error handler when the
error message is truthy; otherwise both the review branch and the normal
branch end the graph. Reading `.startswith` on a `None` category (the key is
present with value `None` whenever no stage ever wrote it) raises an
`AttributeError`. -/
def decide_next_step (s : WFState) : Except PyExc Route :=
  if truthyStr s.error_message then .ok .handleError
  else
    match s.classification_category with
    | none => .error .attributeError
    | some c =>
      .ok (if strStarts c "Review_Needed" then Route.endRoute else Route.endRoute)

/-- `error_handling_node` (lines 319-329): log the error, and when the
category does not already start with "Error:" overwrite it; always zero the
confidence. As in `decide_next_step`, the category key is present with value
`None` when no stage wrote it, so `state.get("classification_category", "")`
returns `None` (not the default) and `.startswith` raises `AttributeError`. -/
def error_handling_node (s : WFState) : Except PyExc WFState :=
  match s.classification_category with
  | none => .error .attributeError
  | some c =>
    if strStarts c "Error:" then
      .ok { s with
        processing_steps := s.processing_steps ++
          ["error_handling_node: Logged - " ++ pyStrOpt s.error_message],
        confidence_score := some 0 }
    else
      .ok { s with
        classification_category := some ("Error: " ++ pyStrOpt s.error_message),
        processing_steps := s.processing_steps ++
          ["error_handling_node: Logged - " ++ pyStrOpt s.error_message],
        confidence_score := some 0 }

/-- The initial state the orchestrator builds per row (lines 457-471):
every key is written, the derived fields as `None`. -/
def initState (exs : Option (List PyRow)) (defs : Option (List (String × String)))
    (target : String) (lbl : Option String) (row : PyRow) : WFState :=
  { all_rows_data := none
    provided_examples := exs
    class_definitions := defs
    target_column_for_classification := target
    label_column_name := lbl
    input_row := row
    classification_mode := none
    llm_prompt := none
    classification_category := none
    confidence_score := none
    llm_reasoning := none
    error_message := none
    processing_steps := [] }

/-- The tail of one graph invocation after the Prompt Builder: classifier,
quality gate, then the conditional edge of `decide_next_step` into either
the error handler or the terminal state (`create_graph`, lines 347-357). -/
def routePhase (llm : String → Except String LLMResp) (s3 : WFState) :
    Except PyExc WFState :=
  match decide_next_step (quality_check_node
      (llm_classification_agent llm s3)) with
  | .error e => .error e
  | .ok Route.handleError =>
    error_handling_node (quality_check_node (llm_classification_agent llm s3))
  | .ok Route.endRoute =>
    .ok (quality_check_node (llm_classification_agent llm s3))

/-- One invocation of the compiled graph (`create_graph`, lines 332-358):
the linear edges strategy -> validator -> preparer -> classifier -> quality
checker, then the conditional edge of `decide_next_step` into either the
error handler or the terminal state. -/
def runWorkflow (llm : String → Except String LLMResp)
    (exs : Option (List PyRow)) (defs : Option (List (String × String)))
    (target : String) (lbl : Option String) (row : PyRow) :
    Except PyExc WFState :=
  match prepare_llm_input_node (validate_row_data
      (determine_classification_strategy (initState exs defs target lbl row))) with
  | .error e => .error e
  | .ok s3 => routePhase llm s3

/-- A default state, used only to read the success component of a workflow
result. -/
def emptyState : WFState := initState none none "" none []

/-- The terminal state of a completed run (the default state on a raised
exception). -/
def okState (r : Except PyExc WFState) : WFState :=
  match r with
  | .ok s => s
  | .error _ => emptyState

/-- Observation: the terminal category of a run, `none` when the run raised. -/
def obsCat (r : Except PyExc WFState) : Option (Option String) :=
  match r with
  | .ok s => some s.classification_category
  | .error _ => none

/-- Observation: the terminal mode of a run. -/
def obsMode (r : Except PyExc WFState) : Option (Option String) :=
  match r with
  | .ok s => some s.classification_mode
  | .error _ => none

/-- Observation: the terminal confidence of a run. -/
def obsConf (r : Except PyExc WFState) : Option (Option ℚ) :=
  match r with
  | .ok s => some s.confidence_score
  | .error _ => none

/-- Observation: the terminal error message of a run. -/
def obsErr (r : Except PyExc WFState) : Option (Option String) :=
  match r with
  | .ok s => some s.error_message
  | .error _ => none

/-- Observation: the terminal rationale (`llm_reasoning`) of a run. -/
def obsReas (r : Except PyExc WFState) : Option (Option String) :=
  match r with
  | .ok s => some s.llm_reasoning
  | .error _ => none

/-- Split a character list at newlines (Python line structure). -/
def splitNL : List Char → List (List Char)
  | [] => [[]]
  | c :: t =>
    if c = '\n' then [] :: splitNL t
    else
      match splitNL t with
      | [] => [[c]]
      | h :: r => (c :: h) :: r

/-- Category extraction as the specification sentence for the unsupervised
parser reads, for refinement comparison only (the source instead scans with
`re.search`, which also matches mid-line): the first LINE whose
case-insensitive PREFIX is "category:" yields the remainder (stripped);
otherwise the parsing-failed default. -/
def specLineCategory (r : String) : String :=
  match (splitNL r.data).find? (fun l => ciStarts "category:".data l) with
  | some l => pyStrip ⟨l.drop 9⟩
  | none => "Error: Parsing Failed"

/-- A state carrying only a truthy error message (sticky-error scenarios). -/
def c6s : WFState := { emptyState with error_message := some "boom" }

/-- A few-shot state ready for the Classifier Invoker. -/
def c7s : WFState :=
  { emptyState with
    classification_mode := some "few_shot_examples",
    llm_prompt := some "p",
    label_column_name := some "label",
    provided_examples := some [[("label", PyVal.vstr "Urgent")]] }

/-- An unsupervised-mode state ready for the Classifier Invoker. -/
def c8s : WFState :=
  { emptyState with
    classification_mode := some "unsupervised_anomaly",
    llm_prompt := some "p" }

/-- A high-confidence "Uncertain" state in front of the Quality Gate. -/
def c3s : WFState :=
  { emptyState with
    classification_category := some "Uncertain",
    confidence_score := some (mkRat 9 10) }

theorem truthyStr_some_iff (s : String) : truthyStr (some s) = true ↔ s ≠ "" := by
  obtain ⟨l⟩ := s
  cases l with
  | nil => simp [truthyStr]
  | cons c t => simp [truthyStr, String.ext_iff]

theorem strat_keeps (s : WFState) :
    (determine_classification_strategy s).classification_category =
      s.classification_category ∧
    (determine_classification_strategy s).confidence_score = s.confidence_score ∧
    (determine_classification_strategy s).llm_reasoning = s.llm_reasoning ∧
    (determine_classification_strategy s).llm_prompt = s.llm_prompt ∧
    (determine_classification_strategy s).input_row = s.input_row ∧
    (determine_classification_strategy s).target_column_for_classification =
      s.target_column_for_classification ∧
    (determine_classification_strategy s).provided_examples = s.provided_examples ∧
    (determine_classification_strategy s).class_definitions = s.class_definitions ∧
    (determine_classification_strategy s).label_column_name = s.label_column_name := by
  unfold determine_classification_strategy
  split_ifs <;> simp

theorem strat_err (s : WFState)
    (h : s.target_column_for_classification ≠ "") :
    (determine_classification_strategy s).error_message = s.error_message := by
  unfold determine_classification_strategy
  split_ifs <;> simp_all

theorem validate_keeps (s : WFState) :
    (validate_row_data s).classification_category = s.classification_category ∧
    (validate_row_data s).confidence_score = s.confidence_score ∧
    (validate_row_data s).llm_reasoning = s.llm_reasoning ∧
    (validate_row_data s).llm_prompt = s.llm_prompt ∧
    (validate_row_data s).classification_mode = s.classification_mode ∧
    (validate_row_data s).target_column_for_classification =
      s.target_column_for_classification ∧
    (validate_row_data s).provided_examples = s.provided_examples ∧
    (validate_row_data s).class_definitions = s.class_definitions ∧
    (validate_row_data s).label_column_name = s.label_column_name := by
  unfold validate_row_data
  split_ifs <;> first
    | simp
    | (split <;> simp)

theorem validate_skip (s : WFState) (h : truthyStr s.error_message = true) :
    validate_row_data s =
      { s with processing_steps := s.processing_steps ++
          ["validate_row_data: SKIPPED due to prior error"] } := by
  unfold validate_row_data
  rw [h]
  simp

theorem prepare_skip (s : WFState) (h : truthyStr s.error_message = true) :
    prepare_llm_input_node s =
      .ok { s with processing_steps := s.processing_steps ++
          ["prepare_llm_input_node: SKIPPED due to error"] } := by
  unfold prepare_llm_input_node
  rw [h]
  simp

theorem agent_skip (llm : String → Except String LLMResp) (s : WFState)
    (h : truthyStr s.error_message = true) :
    llm_classification_agent llm s =
      { s with processing_steps := s.processing_steps ++
          ["llm_classification_agent: SKIPPED"] } := by
  unfold llm_classification_agent
  rw [h]
  simp

theorem gate_skip (s : WFState) (h : truthyStr s.error_message = true) :
    quality_check_node s =
      { s with processing_steps := s.processing_steps ++
          ["quality_check_node: SKIPPED"] } := by
  unfold quality_check_node
  rw [h]
  simp

theorem decide_err (s : WFState) (h : truthyStr s.error_message = true) :
    decide_next_step s = .ok .handleError := by
  unfold decide_next_step
  rw [h]
  simp

theorem handler_none (s : WFState) (h : s.classification_category = none) :
    error_handling_node s = .error .attributeError := by
  unfold error_handling_node
  rw [h]

theorem handler_shape (s s' : WFState)
    (h : error_handling_node s = .ok s') :
    s'.confidence_score = some 0 ∧
    (∃ c, s'.classification_category = some c) ∧
    s'.error_message = s.error_message ∧
    s'.llm_reasoning = s.llm_reasoning := by
  unfold error_handling_node at h
  split at h
  · cases h
  next c heq =>
    split_ifs at h <;> cases h
    · exact ⟨rfl, ⟨c, heq⟩, rfl, rfl⟩
    · exact ⟨rfl, ⟨_, rfl⟩, rfl, rfl⟩

theorem handler_err_kept (s : WFState) (c : String)
    (hc : s.classification_category = some c)
    (hs : strStarts c "Error:" = true) :
    error_handling_node s = .ok
      { s with
        processing_steps := s.processing_steps ++
          ["error_handling_node: Logged - " ++ pyStrOpt s.error_message],
        confidence_score := some 0 } := by
  unfold error_handling_node
  rw [hc]
  simp [hs]

theorem decide_end_some (s : WFState)
    (h : decide_next_step s = .ok .endRoute) :
    ∃ c, s.classification_category = some c := by
  unfold decide_next_step at h
  by_cases he : truthyStr s.error_message = true
  · rw [he] at h
    simp at h
  · rw [Bool.not_eq_true] at he
    rw [he] at h
    simp only [Bool.false_eq_true, if_false] at h
    cases hc : s.classification_category with
    | none => rw [hc] at h; cases h
    | some c => exact ⟨c, rfl⟩

theorem gate_conf (s : WFState) :
    (quality_check_node s).confidence_score = s.confidence_score := by
  unfold quality_check_node
  split_ifs <;> try rfl
  split <;> first | rfl | (split_ifs <;> rfl)

theorem gate_keeps (s : WFState) :
    (quality_check_node s).error_message = s.error_message ∧
    (quality_check_node s).llm_reasoning = s.llm_reasoning ∧
    (quality_check_node s).classification_mode = s.classification_mode := by
  unfold quality_check_node
  split_ifs <;> try exact ⟨rfl, rfl, rfl⟩
  split <;> first | exact ⟨rfl, rfl, rfl⟩ | (split_ifs <;> exact ⟨rfl, rfl, rfl⟩)

theorem gate_cat_cases (s : WFState) :
    (quality_check_node s).classification_category = s.classification_category ∨
    ∃ c, (quality_check_node s).classification_category = some c := by
  unfold quality_check_node
  split_ifs
  · left; rfl
  · right; exact ⟨_, rfl⟩
  · right; exact ⟨_, rfl⟩
  · split
    · split_ifs
      · right; exact ⟨_, rfl⟩
      · left; rfl
    · left; rfl

theorem agent_conf_cases (llm : String → Except String LLMResp) (s : WFState) :
    (llm_classification_agent llm s).confidence_score = s.confidence_score ∨
    ∃ q : ℚ, (llm_classification_agent llm s).confidence_score = some q ∧
      0 ≤ q ∧ q ≤ 1 := by
  unfold llm_classification_agent
  split_ifs
  · left; rfl
  · split
    · right; exact ⟨0, rfl, by norm_num, by norm_num⟩
    · left; rfl
    · simp only [agentParse]
      split_ifs <;> (right; exact ⟨_, rfl, by norm_num, by norm_num⟩)

theorem agent_cat_cases (llm : String → Except String LLMResp) (s : WFState) :
    (llm_classification_agent llm s).classification_category =
      s.classification_category ∨
    ∃ c, (llm_classification_agent llm s).classification_category = some c := by
  unfold llm_classification_agent
  split_ifs
  · left; rfl
  · split
    · right; exact ⟨_, rfl⟩
    · right; exact ⟨_, rfl⟩
    · simp only [agentParse]
      split_ifs <;> (right; exact ⟨_, rfl⟩)

theorem strat_mode (s : WFState)
    (h : s.target_column_for_classification ≠ "") :
    (determine_classification_strategy s).classification_mode =
      some (if truthyList s.provided_examples = true then "few_shot_examples"
            else if truthyList s.class_definitions = true then "definition_based"
            else "unsupervised_anomaly") := by
  unfold determine_classification_strategy
  rw [if_neg h]
  split_ifs <;> simp_all

theorem validate_ok_err (s : WFState) (v : PyVal)
    (herr : truthyStr s.error_message = false)
    (hv : lookupRow s.input_row s.target_column_for_classification = some v) :
    (validate_row_data s).error_message = s.error_message := by
  unfold validate_row_data
  rw [herr]
  have hrow : ¬s.input_row = [] := by
    intro he
    rw [he] at hv
    simp [lookupRow] at hv
  rw [if_neg (by simp), if_neg hrow, hv]
  cases v <;> rfl

theorem validate_missing (s : WFState)
    (herr : truthyStr s.error_message = false)
    (hv : lookupRow s.input_row s.target_column_for_classification = none) :
    truthyStr (validate_row_data s).error_message = true := by
  unfold validate_row_data
  rw [herr]
  by_cases hrow : s.input_row = []
  · rw [if_neg (by simp), if_pos hrow]
    rfl
  · rw [if_neg (by simp), if_neg hrow, hv]
    rfl

theorem prepare_ok_exists (s : WFState)
    (herr : truthyStr s.error_message = false)
    (hcases : s.classification_mode = some "unsupervised_anomaly" ∨
      (s.classification_mode = some "few_shot_examples" ∧
        ∃ exl, s.provided_examples = some exl ∧
          labelsAllStr exl s.label_column_name = true) ∨
      (s.classification_mode = some "definition_based" ∧
        ∃ d, s.class_definitions = some d)) :
    ∃ P msg, prepare_llm_input_node s = .ok
      { s with
        llm_prompt := some P,
        processing_steps := s.processing_steps ++ [msg] } ∧
      truthyStr (some P) = true := by
  rcases hcases with hm | ⟨hm, exl, hexs, hl⟩ | ⟨hm, d, hd⟩
  · refine ⟨unsupPromptText (pyValStr ((lookupRow s.input_row
        s.target_column_for_classification).getD (.vstr ""))),
      "prepare_llm_input_node: SUCCESS - Mode unsupervised_anomaly", ?_, rfl⟩
    unfold prepare_llm_input_node
    rw [herr]
    simp [hm]
  · refine ⟨fewShotPromptText
        (dedupSort (exl.map (fun ex =>
          pyValStr (pyGetValD ex s.label_column_name (.vstr "UnknownLabel")))))
        (joinSep "\n" (exl.map (fun ex =>
          "- Text: \"" ++ pyValStr (pyGetValD ex
            (some s.target_column_for_classification) (.vstr "")) ++
          "\" -> Category: " ++
          pyValStr (pyGetValD ex s.label_column_name (.vstr "UnknownLabel")))))
        (pyValStr ((lookupRow s.input_row
          s.target_column_for_classification).getD (.vstr ""))),
      "prepare_llm_input_node: SUCCESS - Mode few_shot_examples", ?_, rfl⟩
    unfold prepare_llm_input_node
    rw [herr]
    simp [hm, hexs, hl]
  · refine ⟨defPromptText d (pyValStr ((lookupRow s.input_row
        s.target_column_for_classification).getD (.vstr ""))),
      "prepare_llm_input_node: SUCCESS - Mode definition_based", ?_, rfl⟩
    unfold prepare_llm_input_node
    rw [herr]
    simp [hm, hd]

theorem agent_raise (m : String) (s : WFState)
    (herr : truthyStr s.error_message = false)
    (hp : truthyStr s.llm_prompt = true) :
    llm_classification_agent (fun _ => Except.error m) s =
      { s with
        error_message := some ("LLM call/parsing failed: " ++ m),
        classification_category := some "Error: LLM Exception",
        llm_reasoning := none,
        confidence_score := some 0,
        processing_steps := s.processing_steps ++
          ["llm_classification_agent: FAILED"] } := by
  unfold llm_classification_agent
  rw [herr, hp]
  simp

theorem defs_guard (cat : String) (defs : Option (List (String × String))) :
    ((truthyList defs && keyMem cat defs) = true) ↔ cat ∈ defKeys defs := by
  cases defs with
  | none => simp [truthyList, keyMem, defKeys]
  | some l =>
    cases l with
    | nil => simp [truthyList, keyMem, defKeys]
    | cons x xs =>
      simp only [truthyList, Bool.true_and, keyMem, defKeys, List.any_eq_true,
        List.mem_map, decide_eq_true_eq]

theorem exs_guard (exs : Option (List PyRow)) (lbl : Option String)
    (cat : String) :
    (truthyList exs && anyLabelEq (exs.getD []) lbl cat) =
      anyLabelEq (exs.getD []) lbl cat := by
  cases exs with
  | none => simp [truthyList, anyLabelEq]
  | some l =>
    cases l with
    | nil => simp [truthyList, anyLabelEq]
    | cons x xs => simp [truthyList]

/-- Claim C9 (confirmed): end to end, for the row with field "text" =
"URGENT: server down", target field "text", label field "label", the two
given examples, and a classifier returning "Category: Urgent", the pipeline
terminates with mode few_shot_examples (the code name of few-shot),
category "Urgent", confidence 0.88, and no error. -/
theorem c9_end_to_end :
    obsMode (runWorkflow (fun _ => Except.ok (LLMResp.rstr "Category: Urgent"))
        (some [[("text", PyVal.vstr "please reply soon"),
                ("label", PyVal.vstr "Inquiry")],
               [("text", PyVal.vstr "urgent issue now"),
                ("label", PyVal.vstr "Urgent")]])
        none "text" (some "label")
        [("text", PyVal.vstr "URGENT: server down")]) =
      some (some "few_shot_examples") ∧
    obsCat (runWorkflow (fun _ => Except.ok (LLMResp.rstr "Category: Urgent"))
        (some [[("text", PyVal.vstr "please reply soon"),
                ("label", PyVal.vstr "Inquiry")],
               [("text", PyVal.vstr "urgent issue now"),
                ("label", PyVal.vstr "Urgent")]])
        none "text" (some "label")
        [("text", PyVal.vstr "URGENT: server down")]) =
      some (some "Urgent") ∧
    obsConf (runWorkflow (fun _ => Except.ok (LLMResp.rstr "Category: Urgent"))
        (some [[("text", PyVal.vstr "please reply soon"),
                ("label", PyVal.vstr "Inquiry")],
               [("text", PyVal.vstr "urgent issue now"),
                ("label", PyVal.vstr "Urgent")]])
        none "text" (some "label")
        [("text", PyVal.vstr "URGENT: server down")]) =
      some (some (mkRat 88 100)) ∧
    obsErr (runWorkflow (fun _ => Except.ok (LLMResp.rstr "Category: Urgent"))
        (some [[("text", PyVal.vstr "please reply soon"),
                ("label", PyVal.vstr "Inquiry")],
               [("text", PyVal.vstr "urgent issue now"),
                ("label", PyVal.vstr "Urgent")]])
        none "text" (some "label")
        [("text", PyVal.vstr "URGENT: server down")]) =
      some none := by
  refine ⟨?_, ?_, ?_, ?_⟩ <;> decide

/-- Claim C10 (code bug): a row that fails validation reaches the Error
Handler with the category key present but bound to None (no stage ever set
it), `state.get("classification_category", "")` therefore returns None, and
`None.startswith("Error:")` raises an AttributeError: the handler never
terminates with the normalized values the claim states. Both the whole
pipeline and the handler in isolation raise. -/
theorem c10_error_handler_crash :
    runWorkflow (fun _ => Except.ok (LLMResp.rstr "Category: X")) none none
        "text" none [("note", PyVal.vstr "hi")] =
      Except.error PyExc.attributeError ∧
    error_handling_node { emptyState with
        error_message := some "Target column missing" } =
      Except.error PyExc.attributeError := by
  refine ⟨?_, ?_⟩ <;> decide

/-- Counterexample to claim C1: with no supervision and a classifier that
answers exactly "Category:", the run completes normally (no error) but the
terminal category is the EMPTY string: the parsed category is "" with
confidence 0.65, and no Quality Gate rule fires. -/
theorem c1_empty_category_cex :
    obsCat (runWorkflow (fun _ => Except.ok (LLMResp.rstr "Category:"))
        none none "text" none [("text", PyVal.vstr "hello")]) =
      some (some "") ∧
    obsErr (runWorkflow (fun _ => Except.ok (LLMResp.rstr "Category:"))
        none none "text" none [("text", PyVal.vstr "hello")]) =
      some none ∧
    obsConf (runWorkflow (fun _ => Except.ok (LLMResp.rstr "Category:"))
        none none "text" none [("text", PyVal.vstr "hello")]) =
      some (some (mkRat 65 100)) := by
  refine ⟨?_, ?_, ?_⟩ <;> decide

/-- Counterexample to claim C4: for a row lacking the target field, the full
pipeline does NOT yield a terminal state with a "Review_Needed: Error:"
category; it raises an AttributeError inside the Error Handler (the Quality
Gate had skipped, leaving the category None). -/
theorem c4_missing_target_cex :
    runWorkflow (fun _ => Except.ok (LLMResp.rstr "Category: General"))
        (some [[("text", PyVal.vstr "a"), ("label", PyVal.vstr "L")]]) none
        "text" (some "label") [("other", PyVal.vstr "x")] =
      Except.error PyExc.attributeError := by
  decide

/-- Counterexample to claim C8: the source scans with `re.search`, which
matches "Category:" ANYWHERE, not only as a line prefix. On the response
"A Category: Anomaly" the code extracts "Anomaly" with confidence 0.9,
while the claim's line-prefix reading finds no "Category:" line and
predicts "Error: Parsing Failed" with confidence 0.65. -/
theorem c8_midline_match_cex :
    (llm_classification_agent
        (fun _ => Except.ok (LLMResp.rstr "A Category: Anomaly"))
        c8s).classification_category = some "Anomaly" ∧
    (llm_classification_agent
        (fun _ => Except.ok (LLMResp.rstr "A Category: Anomaly"))
        c8s).confidence_score = some (mkRat 9 10) ∧
    specLineCategory "A Category: Anomaly" = "Error: Parsing Failed" ∧
    some "Anomaly" ≠ some "Error: Parsing Failed" := by
  refine ⟨?_, ?_, ?_, ?_⟩ <;> decide

/-- Claim C2 (confirmed): the Strategy Selector sets the error message (and
leaves the mode untouched) when the target field name is empty/falsy;
otherwise it assigns exactly one mode by the fixed total precedence
examples -> definitions -> unsupervised, leaving the error untouched. -/
theorem c2_strategy_selector_total (s : WFState) :
    (s.target_column_for_classification = "" →
      truthyStr (determine_classification_strategy s).error_message = true ∧
      (determine_classification_strategy s).classification_mode =
        s.classification_mode) ∧
    (s.target_column_for_classification ≠ "" →
      (determine_classification_strategy s).error_message = s.error_message ∧
      (determine_classification_strategy s).classification_mode =
        some (if truthyList s.provided_examples = true then "few_shot_examples"
              else if truthyList s.class_definitions = true then
                "definition_based"
              else "unsupervised_anomaly")) := by
  constructor
  · intro h
    unfold determine_classification_strategy
    rw [if_pos h]
    exact ⟨rfl, rfl⟩
  · intro h
    exact ⟨strat_err s h, strat_mode s h⟩

/-- Witness for C2: an empty target name yields an error; with both
examples and definitions supplied the mode is few-shot. -/
theorem c2_strategy_selector_witness :
    truthyStr (determine_classification_strategy
      { emptyState with provided_examples := some [[("label", PyVal.vstr "L")]] }
      ).error_message = true ∧
    (determine_classification_strategy
      { emptyState with
        target_column_for_classification := "text",
        provided_examples := some [[("label", PyVal.vstr "L")]],
        class_definitions := some [("k", "d")] }).classification_mode =
      some "few_shot_examples" := by
  constructor
  · exact ((c2_strategy_selector_total _).1 rfl).1
  · exact ((c2_strategy_selector_total { emptyState with
      target_column_for_classification := "text",
      provided_examples := some [[("label", PyVal.vstr "L")]],
      class_definitions := some [("k", "d")] }).2 (by decide)).2.trans (by decide)

/-- Claim C6 (confirmed): once the error message is truthy, the Row
Validator, Prompt Builder, Classifier Invoker and Quality Gate each reduce
to a pure trace append: the whole record except the trace — in particular
`error_message`, `classification_category` and `confidence_score` — is
returned unchanged; only the Error Handler still writes category and
confidence. -/
theorem c6_error_sticky (s : WFState)
    (h : truthyStr s.error_message = true) :
    validate_row_data s =
      { s with processing_steps := s.processing_steps ++
          ["validate_row_data: SKIPPED due to prior error"] } ∧
    prepare_llm_input_node s = .ok
      { s with processing_steps := s.processing_steps ++
          ["prepare_llm_input_node: SKIPPED due to error"] } ∧
    (∀ llm, llm_classification_agent llm s =
      { s with processing_steps := s.processing_steps ++
          ["llm_classification_agent: SKIPPED"] }) ∧
    quality_check_node s =
      { s with processing_steps := s.processing_steps ++
          ["quality_check_node: SKIPPED"] } :=
  ⟨validate_skip s h, prepare_skip s h, fun llm => agent_skip llm s h,
   gate_skip s h⟩

/-- Witness for C6 at the concrete errored state `c6s`. -/
theorem c6_error_sticky_witness :
    validate_row_data c6s =
      { c6s with processing_steps := c6s.processing_steps ++
          ["validate_row_data: SKIPPED due to prior error"] } ∧
    prepare_llm_input_node c6s = .ok
      { c6s with processing_steps := c6s.processing_steps ++
          ["prepare_llm_input_node: SKIPPED due to error"] } ∧
    llm_classification_agent (fun _ => Except.error "down") c6s =
      { c6s with processing_steps := c6s.processing_steps ++
          ["llm_classification_agent: SKIPPED"] } ∧
    quality_check_node c6s =
      { c6s with processing_steps := c6s.processing_steps ++
          ["quality_check_node: SKIPPED"] } := by
  have h := c6_error_sticky c6s (by decide)
  exact ⟨h.1, h.2.1, h.2.2.1 _, h.2.2.2⟩

/-- Claim C3 (confirmed): on an error-free state whose category is set, the
Quality Gate applies exactly the first matching rule of the fixed order —
error substring, exact uncertainty names, low confidence, else unchanged —
and in particular an exact "Uncertain" is demoted regardless of the
confidence value. -/
theorem c3_quality_gate_fixed_order (s : WFState) (c : String)
    (herr : truthyStr s.error_message = false)
    (hc : s.classification_category = some c) :
    ((quality_check_node s).classification_category = some
      (if subIn "Error:" c = true then "Review_Needed: " ++ c
       else if c = "Uncertain" ∨ c = "Uncategorized" ∨ c = "Empty/Invalid" then
         "Review_Needed: " ++ c
       else
         match s.confidence_score with
         | some q => if q < (mkRat 65 100) then
             "Review_Needed: " ++ c ++ " (Low Confidence)"
           else c
         | none => c)) ∧
    (c = "Uncertain" →
      (quality_check_node s).classification_category =
        some "Review_Needed: Uncertain") := by
  have hmain : (quality_check_node s).classification_category = some
      (if subIn "Error:" c = true then "Review_Needed: " ++ c
       else if c = "Uncertain" ∨ c = "Uncategorized" ∨ c = "Empty/Invalid" then
         "Review_Needed: " ++ c
       else
         match s.confidence_score with
         | some q => if q < (mkRat 65 100) then
             "Review_Needed: " ++ c ++ " (Low Confidence)"
           else c
         | none => c) := by
    unfold quality_check_node
    rw [herr, hc]
    by_cases h1 : subIn "Error:" c = true
    · have hne : c ≠ "" := by
        intro he
        subst he
        exact absurd h1 (by decide)
      have htr : truthyStr (some c) = true := (truthyStr_some_iff c).mpr hne
      simp [htr, h1, pyStrOpt]
    · by_cases h2 : c = "Uncertain" ∨ c = "Uncategorized" ∨ c = "Empty/Invalid"
      · simp [h1, h2, pyStrOpt]
      · simp only [Bool.false_eq_true, if_false, h1, h2, pyStrOpt,
          Bool.and_eq_true, Option.some.injEq]
        simp [h1, h2, pyStrOpt]
        split <;> (try split_ifs) <;> simp [pyStrOpt]
  refine ⟨hmain, ?_⟩
  intro hcu
  subst hcu
  rw [hmain]
  simp [show subIn "Error:" "Uncertain" = false from rfl]

/-- Witness for C3: the concrete state `c3s` ("Uncertain" at confidence
0.9) is demoted to "Review_Needed: Uncertain". -/
theorem c3_quality_gate_witness :
    (quality_check_node c3s).classification_category =
      some "Review_Needed: Uncertain" :=
  (c3_quality_gate_fixed_order c3s "Uncertain" (by decide) rfl).2 rfl

/-- Claim C7 (confirmed): in few-shot and definition-based modes, a string
response is stripped; if it starts with "category:" case-insensitively the
category is the (stripped) remainder after the first colon, otherwise the
whole stripped response; the confidence is 4/10 for "Uncertain" or
"Uncategorized", else 85/100 when the category is a key of the supplied
definitions, else 88/100 when it equals some example's label, else 6/10. -/
theorem c7_fewshot_parse_confidence (s : WFState) (r cat : String)
    (herr : truthyStr s.error_message = false)
    (hp : truthyStr s.llm_prompt = true)
    (hm : s.classification_mode = some "few_shot_examples" ∨
          s.classification_mode = some "definition_based")
    (hcat : cat = if strStarts (pyLower (pyStrip r)) "category:" = true then
        pyStrip (afterFirstColon (pyStrip r))
      else pyStrip r) :
    (llm_classification_agent (fun _ => Except.ok (LLMResp.rstr r))
        s).classification_category = some cat ∧
    (llm_classification_agent (fun _ => Except.ok (LLMResp.rstr r))
        s).confidence_score = some
      (if cat = "Uncertain" ∨ cat = "Uncategorized" then (mkRat 4 10)
       else if cat ∈ defKeys s.class_definitions then (mkRat 85 100)
       else if anyLabelEq (s.provided_examples.getD []) s.label_column_name cat
           = true then (mkRat 88 100)
       else (mkRat 6 10)) := by
  subst hcat
  have hskip : (truthyStr s.error_message || !truthyStr s.llm_prompt) = false := by
    rw [herr, hp]
    rfl
  have hnu : ¬s.classification_mode = some "unsupervised_anomaly" := by
    rcases hm with h | h <;> simp [h]
  unfold llm_classification_agent
  rw [hskip]
  simp only [Bool.false_eq_true, if_false]
  show (agentParse s (pyStrip r)).classification_category = _ ∧
    (agentParse s (pyStrip r)).confidence_score = _
  unfold agentParse
  rw [if_neg hnu, if_pos hm]
  constructor
  · rfl
  · simp only [defs_guard, exs_guard]

/-- Witness for C7 at the concrete state `c7s` with response
"Category: Urgent": category "Urgent" with example-label confidence 88/100. -/
theorem c7_fewshot_parse_witness :
    (llm_classification_agent (fun _ => Except.ok (LLMResp.rstr "Category: Urgent"))
        c7s).classification_category = some "Urgent" ∧
    (llm_classification_agent (fun _ => Except.ok (LLMResp.rstr "Category: Urgent"))
        c7s).confidence_score = some (mkRat 88 100) := by
  have h := c7_fewshot_parse_confidence c7s "Category: Urgent" "Urgent"
    (by decide) (by decide) (Or.inl rfl) (by decide)
  exact ⟨h.1, h.2.trans (by decide)⟩

/-- Claim C8, amended: in unsupervised mode the code does NOT require a
"Category:"/"Reasoning:" LINE PREFIX; `re.search` finds the first
case-insensitive occurrence of the marker ANYWHERE in the stripped
response, `\s*` then skips whitespace (line breaks included) and the rest
of that line is captured and stripped; with no occurrence the category
defaults to "Error: Parsing Failed"; confidence is 9/10 for exactly
"Anomaly", 5/10 for "Empty/Invalid", else 65/100; an empty or missing
reasoning capture is stored as "N/A". -/
theorem c8_unsupervised_parse_amended (s : WFState) (r cat : String)
    (herr : truthyStr s.error_message = false)
    (hp : truthyStr s.llm_prompt = true)
    (hm : s.classification_mode = some "unsupervised_anomaly")
    (hcat : cat = (((regexGroup "Category:" (pyStrip r)).map pyStrip).getD
        "Error: Parsing Failed")) :
    (llm_classification_agent (fun _ => Except.ok (LLMResp.rstr r))
        s).classification_category = some cat ∧
    (llm_classification_agent (fun _ => Except.ok (LLMResp.rstr r))
        s).confidence_score = some
      (if cat = "Anomaly" then (mkRat 9 10)
       else if cat = "Empty/Invalid" then (mkRat 5 10)
       else (mkRat 65 100)) ∧
    (llm_classification_agent (fun _ => Except.ok (LLMResp.rstr r))
        s).llm_reasoning = some
      (match (regexGroup "Reasoning:" (pyStrip r)).map pyStrip with
       | some rr => if rr = "" then "N/A" else rr
       | none => "N/A") := by
  subst hcat
  have hskip : (truthyStr s.error_message || !truthyStr s.llm_prompt) = false := by
    rw [herr, hp]
    rfl
  unfold llm_classification_agent
  rw [hskip]
  simp only [Bool.false_eq_true, if_false]
  show (agentParse s (pyStrip r)).classification_category = _ ∧
    (agentParse s (pyStrip r)).confidence_score = _ ∧
    (agentParse s (pyStrip r)).llm_reasoning = _
  unfold agentParse
  rw [if_pos hm]
  exact ⟨rfl, rfl, rfl⟩

/-- Witness for C8 (amended) at the concrete state `c8s` with response
"Category: Anomaly" plus a reasoning line. -/
theorem c8_unsupervised_parse_witness :
    (llm_classification_agent
        (fun _ => Except.ok (LLMResp.rstr "Category: Anomaly\nReasoning: spikes"))
        c8s).classification_category = some "Anomaly" ∧
    (llm_classification_agent
        (fun _ => Except.ok (LLMResp.rstr "Category: Anomaly\nReasoning: spikes"))
        c8s).confidence_score = some (mkRat 9 10) ∧
    (llm_classification_agent
        (fun _ => Except.ok (LLMResp.rstr "Category: Anomaly\nReasoning: spikes"))
        c8s).llm_reasoning = some "spikes" := by
  have h := c8_unsupervised_parse_amended c8s
    "Category: Anomaly\nReasoning: spikes" "Anomaly"
    (by decide) (by decide) rfl (by decide)
  exact ⟨h.1, h.2.1.trans (by decide), h.2.2.trans (by decide)⟩

/-- Claim C4, amended: for every input row whose target field is absent
(with a non-empty target field name), the Row Validator sets the error, the
remaining stages skip, and the run then RAISES an AttributeError inside the
Error Handler (the category was never written, so `.startswith` is called
on None); no terminal state — in particular none with a
"Review_Needed: Error:" category — is produced. -/
theorem c4_missing_target_attribute_error
    (llm : String → Except String LLMResp)
    (exs : Option (List PyRow)) (defs : Option (List (String × String)))
    (target : String) (lbl : Option String) (row : PyRow)
    (ht : target ≠ "")
    (hmiss : lookupRow row target = none) :
    runWorkflow llm exs defs target lbl row =
      Except.error PyExc.attributeError := by
  obtain ⟨k1, k2, k3, k4, k5, k6, k7, k8, k9⟩ :=
    strat_keeps (initState exs defs target lbl row)
  have herr1 : truthyStr (determine_classification_strategy
      (initState exs defs target lbl row)).error_message = false := by
    rw [strat_err _ ht]
    rfl
  have hmiss1 : lookupRow (determine_classification_strategy
        (initState exs defs target lbl row)).input_row
      (determine_classification_strategy
        (initState exs defs target lbl row)).target_column_for_classification
      = none := by
    rw [k5, k6]
    exact hmiss
  have e1 : truthyStr (validate_row_data (determine_classification_strategy
      (initState exs defs target lbl row))).error_message = true :=
    validate_missing _ herr1 hmiss1
  have ecat : (validate_row_data (determine_classification_strategy
      (initState exs defs target lbl row))).classification_category = none :=
    ((validate_keeps _).1.trans k1).trans
      (rfl : (initState exs defs target lbl row).classification_category = none)
  simp only [runWorkflow]
  simp only [prepare_skip, e1]
  simp only [routePhase]
  simp only [agent_skip, gate_skip, decide_err, handler_none, e1, ecat]

/-- Witness for C4 (amended) at a concrete row lacking the "text" field. -/
theorem c4_missing_target_witness :
    runWorkflow (fun _ => Except.ok (LLMResp.rstr "Category: G")) none
      (some [("Spam", "unwanted")]) "text" none [("body", PyVal.vstr "hi")] =
      Except.error PyExc.attributeError :=
  c4_missing_target_attribute_error _ none (some [("Spam", "unwanted")])
    "text" none [("body", PyVal.vstr "hi")] (by decide) (by decide)

theorem handler_exc (s : WFState)
    (hc : s.classification_category = some "Error: LLM Exception") :
    error_handling_node s = .ok { s with
      processing_steps := s.processing_steps ++
        ["error_handling_node: Logged - " ++ pyStrOpt s.error_message],
      confidence_score := some 0 } :=
  handler_err_kept s _ hc (by decide)

/-- Claim C5 (confirmed): when the classifier call raises, the Classifier
Invoker stores error "LLM call/parsing failed: ...", category
"Error: LLM Exception", confidence 0 and no rationale, and — since the
category already starts with "Error:" — the Error Handler leaves category
and confidence at exactly those values in the terminal state. -/
theorem c5_llm_exception_terminal (m target : String) (v : PyVal)
    (exs : Option (List PyRow)) (defs : Option (List (String × String)))
    (lbl : Option String) (row : PyRow)
    (ht : target ≠ "")
    (hv : lookupRow row target = some v)
    (hlbl : truthyList exs = true → labelsAllStr (exs.getD []) lbl = true) :
    obsCat (runWorkflow (fun _ => Except.error m) exs defs target lbl row) =
      some (some "Error: LLM Exception") ∧
    obsConf (runWorkflow (fun _ => Except.error m) exs defs target lbl row) =
      some (some 0) ∧
    obsReas (runWorkflow (fun _ => Except.error m) exs defs target lbl row) =
      some none ∧
    obsErr (runWorkflow (fun _ => Except.error m) exs defs target lbl row) =
      some (some ("LLM call/parsing failed: " ++ m)) := by
  obtain ⟨k1, k2, k3, k4, k5, k6, k7, k8, k9⟩ :=
    strat_keeps (initState exs defs target lbl row)
  obtain ⟨v1, v2, v3, v4, v5, v6, v7, v8, v9⟩ :=
    validate_keeps (determine_classification_strategy
      (initState exs defs target lbl row))
  have herr1 : truthyStr (determine_classification_strategy
      (initState exs defs target lbl row)).error_message = false := by
    rw [strat_err _ ht]
    rfl
  have hv1 : lookupRow (determine_classification_strategy
        (initState exs defs target lbl row)).input_row
      (determine_classification_strategy
        (initState exs defs target lbl row)).target_column_for_classification
      = some v := by
    rw [k5, k6]
    exact hv
  have herr2 : truthyStr (validate_row_data (determine_classification_strategy
      (initState exs defs target lbl row))).error_message = false := by
    rw [validate_ok_err _ v herr1 hv1, strat_err _ ht]
    rfl
  have hmode2 : (validate_row_data (determine_classification_strategy
      (initState exs defs target lbl row))).classification_mode =
      some (if truthyList exs = true then "few_shot_examples"
            else if truthyList defs = true then "definition_based"
            else "unsupervised_anomaly") := by
    rw [v5, strat_mode _ ht]
    exact rfl
  have hcases : (validate_row_data (determine_classification_strategy
        (initState exs defs target lbl row))).classification_mode =
        some "unsupervised_anomaly" ∨
      ((validate_row_data (determine_classification_strategy
        (initState exs defs target lbl row))).classification_mode =
        some "few_shot_examples" ∧
        ∃ exl, (validate_row_data (determine_classification_strategy
          (initState exs defs target lbl row))).provided_examples = some exl ∧
          labelsAllStr exl (validate_row_data (determine_classification_strategy
            (initState exs defs target lbl row))).label_column_name = true) ∨
      ((validate_row_data (determine_classification_strategy
        (initState exs defs target lbl row))).classification_mode =
        some "definition_based" ∧
        ∃ d, (validate_row_data (determine_classification_strategy
          (initState exs defs target lbl row))).class_definitions = some d) := by
    by_cases he : truthyList exs = true
    · refine Or.inr (Or.inl ⟨?_, ?_⟩)
      · rw [hmode2]
        simp [he]
      · obtain ⟨exl, hexl⟩ : ∃ l, exs = some l := by
          cases exs with
          | none => simp [truthyList] at he
          | some l => exact ⟨l, rfl⟩
        refine ⟨exl, ?_, ?_⟩
        · rw [v7, k7]
          exact hexl
        · rw [v9, k9]
          have h' := hlbl he
          rw [hexl] at h'
          exact h'
    · by_cases hd : truthyList defs = true
      · refine Or.inr (Or.inr ⟨?_, ?_⟩)
        · rw [hmode2]
          simp [he, hd]
        · obtain ⟨d, hdd⟩ : ∃ l, defs = some l := by
            cases defs with
            | none => simp [truthyList] at hd
            | some l => exact ⟨l, rfl⟩
          refine ⟨d, ?_⟩
          rw [v8, k8]
          exact hdd
      · refine Or.inl ?_
        rw [hmode2]
        simp [he, hd]
  obtain ⟨P, msg, hprep, hPt⟩ := prepare_ok_exists _ herr2 hcases
  have hfail : truthyStr (some ("LLM call/parsing failed: " ++ m)) = true := rfl
  simp only [runWorkflow]
  simp only [hprep]
  simp only [routePhase]
  simp only [agent_raise, gate_skip, decide_err, handler_exc,
    herr2, hPt, hfail]
  simp only [obsCat, obsConf, obsReas, obsErr]
  exact ⟨trivial, trivial, trivial, trivial⟩

/-- Witness for C5 at a concrete unsupervised run whose classifier raises
"boom". -/
theorem c5_llm_exception_witness :
    obsCat (runWorkflow (fun _ => Except.error "boom") none none "text" none
      [("text", PyVal.vstr "hello")]) = some (some "Error: LLM Exception") ∧
    obsConf (runWorkflow (fun _ => Except.error "boom") none none "text" none
      [("text", PyVal.vstr "hello")]) = some (some 0) ∧
    obsReas (runWorkflow (fun _ => Except.error "boom") none none "text" none
      [("text", PyVal.vstr "hello")]) = some none ∧
    obsErr (runWorkflow (fun _ => Except.error "boom") none none "text" none
      [("text", PyVal.vstr "hello")]) =
      some (some "LLM call/parsing failed: boom") := by
  have h := c5_llm_exception_terminal "boom" "text" (PyVal.vstr "hello")
    none none none [("text", PyVal.vstr "hello")] (by decide) (by decide)
    (fun hx => absurd hx (by decide))
  exact ⟨h.1, h.2.1, h.2.2.1, h.2.2.2.trans (by decide)⟩

theorem prepare_pres_conf (s s' : WFState)
    (h : prepare_llm_input_node s = .ok s') :
    s'.confidence_score = s.confidence_score := by
  unfold prepare_llm_input_node at h
  split_ifs at h
  all_goals try split at h
  all_goals try split_ifs at h
  all_goals cases h
  all_goals rfl

theorem routePhase_shape (llm : String → Except String LLMResp)
    (s3 s : WFState) (h : routePhase llm s3 = Except.ok s)
    (hc3 : s3.confidence_score = none) :
    (∃ c, s.classification_category = some c) ∧
    (s.confidence_score = none ∨
      ∃ q : ℚ, s.confidence_score = some q ∧ 0 ≤ q ∧ q ≤ 1) := by
  unfold routePhase at h
  cases hd : decide_next_step (quality_check_node
      (llm_classification_agent llm s3)) with
  | error e =>
    rw [hd] at h
    exact Except.noConfusion h
  | ok r =>
    rw [hd] at h
    cases r with
    | handleError =>
      have h' : error_handling_node (quality_check_node
          (llm_classification_agent llm s3)) = Except.ok s := h
      obtain ⟨hcf, hcat, -, -⟩ := handler_shape _ _ h'
      exact ⟨hcat, Or.inr ⟨0, hcf, le_refl 0, by norm_num⟩⟩
    | endRoute =>
      have h' : Except.ok (quality_check_node
          (llm_classification_agent llm s3)) = Except.ok s := h
      have hs : s = quality_check_node (llm_classification_agent llm s3) := by
        cases h'
        rfl
      subst hs
      constructor
      · exact decide_end_some _ hd
      · rw [gate_conf]
        rcases agent_conf_cases llm s3 with hsame | ⟨q, hq, h0, h1⟩
        · rw [hsame, hc3]
          exact Or.inl rfl
        · exact Or.inr ⟨q, hq, h0, h1⟩

/-- Claim C1, amended: whenever a run COMPLETES, the terminal state always
carries SOME category value and its confidence is either absent or within
[0,1]. The original claim's "non-empty" fails: an empty parsed category at
confidence 0.65 passes the Quality Gate untouched (see the counterexample);
moreover validation-failure rows raise instead of completing (see C4/C10). -/
theorem c1_terminal_category_and_confidence
    (llm : String → Except String LLMResp)
    (exs : Option (List PyRow)) (defs : Option (List (String × String)))
    (target : String) (lbl : Option String) (row : PyRow) (s : WFState)
    (h : runWorkflow llm exs defs target lbl row = Except.ok s) :
    (∃ c, s.classification_category = some c) ∧
    (s.confidence_score = none ∨
      ∃ q : ℚ, s.confidence_score = some q ∧ 0 ≤ q ∧ q ≤ 1) := by
  unfold runWorkflow at h
  cases hp : prepare_llm_input_node (validate_row_data
      (determine_classification_strategy (initState exs defs target lbl row))) with
  | error e =>
    rw [hp] at h
    exact Except.noConfusion h
  | ok s3 =>
    rw [hp] at h
    have h3 : routePhase llm s3 = Except.ok s := h
    have hc3 : s3.confidence_score = none := by
      rw [prepare_pres_conf _ _ hp, (validate_keeps _).2.1, (strat_keeps _).2.1]
      rfl
    exact routePhase_shape llm s3 s h3 hc3

/-- Witness for C1 (amended): the counterexample run itself completes, its
category is set (to the empty string) and its confidence 0.65 lies in
[0,1]. -/
theorem c1_terminal_witness :
    (∃ c, (okState (runWorkflow (fun _ => Except.ok (LLMResp.rstr "Category:"))
      none none "text" none
      [("text", PyVal.vstr "hello")])).classification_category = some c) ∧
    ((okState (runWorkflow (fun _ => Except.ok (LLMResp.rstr "Category:"))
        none none "text" none
        [("text", PyVal.vstr "hello")])).confidence_score = none ∨
      ∃ q : ℚ, (okState (runWorkflow (fun _ => Except.ok (LLMResp.rstr "Category:"))
        none none "text" none
        [("text", PyVal.vstr "hello")])).confidence_score = some q ∧
        0 ≤ q ∧ q ≤ 1) :=
  c1_terminal_category_and_confidence
    (fun _ => Except.ok (LLMResp.rstr "Category:")) none none "text" none
    [("text", PyVal.vstr "hello")] _ (by decide)
